import Mathlib

/-!
Verification of the Coordinate repository: 2D affine coordinate transforms
and a hierarchy of nested coordinate frames.

The embedding translates the canonical implementation under
`src/relative/` (`system.py`, `coordinate.py`) together with the
transform builders (`trs2D`, `translate2D`, `rotate2D`, `scale2D`, shared
with `src/coordinate/__init__.py`) into Lean.  Scalars are modelled as
exact rationals `ℚ` (the Python code uses floats; exact arithmetic is the
idealisation under which the spec's "within floating-point tolerance"
statements become exact equalities).  A 3x3 numpy array becomes the
structure `Mat3`; `np.linalg.inv` becomes `np_linalg_inv`, which fails
exactly on determinant zero — numpy raises `numpy.linalg.LinAlgError`
there — and otherwise returns the exact adjugate-based inverse.

The rotation angle is represented by its cosine–sine pair `(c, s)`
instead of the raw angle, because real trigonometric functions are not
computable on `ℚ`; `rotate2D c s` is the matrix `rotate2D(angle)` of the
source with `c = cos angle` and `s = sin angle` (the identity rotation,
angle 0, is `(c, s) = (1, 0)`).
-/

namespace Coord

/-- A 3x3 matrix with rational entries, row-major fields `aRC`.
Models a numpy `(3, 3)` float array. -/
@[ext]
structure Mat3 where
  a00 : ℚ
  a01 : ℚ
  a02 : ℚ
  a10 : ℚ
  a11 : ℚ
  a12 : ℚ
  a20 : ℚ
  a21 : ℚ
  a22 : ℚ
deriving DecidableEq, Repr

/-- A homogeneous 3-vector, modelling a numpy `(3,)` array. -/
abbrev Vec3 : Type := ℚ × ℚ × ℚ

/-- `np.eye(3)`: the 3x3 identity matrix. -/
def eye3 : Mat3 :=
  ⟨1, 0, 0, 0, 1, 0, 0, 0, 1⟩

/-- Matrix–matrix product, modelling `A @ B` on `(3,3)` arrays. -/
def matMul (A B : Mat3) : Mat3 :=
  ⟨A.a00 * B.a00 + A.a01 * B.a10 + A.a02 * B.a20,
   A.a00 * B.a01 + A.a01 * B.a11 + A.a02 * B.a21,
   A.a00 * B.a02 + A.a01 * B.a12 + A.a02 * B.a22,
   A.a10 * B.a00 + A.a11 * B.a10 + A.a12 * B.a20,
   A.a10 * B.a01 + A.a11 * B.a11 + A.a12 * B.a21,
   A.a10 * B.a02 + A.a11 * B.a12 + A.a12 * B.a22,
   A.a20 * B.a00 + A.a21 * B.a10 + A.a22 * B.a20,
   A.a20 * B.a01 + A.a21 * B.a11 + A.a22 * B.a21,
   A.a20 * B.a02 + A.a21 * B.a12 + A.a22 * B.a22⟩

/-- Matrix–vector product, modelling `M @ v` for a `(3,)` array `v`. -/
def matVec (M : Mat3) (v : Vec3) : Vec3 :=
  (M.a00 * v.1 + M.a01 * v.2.1 + M.a02 * v.2.2,
   M.a10 * v.1 + M.a11 * v.2.1 + M.a12 * v.2.2,
   M.a20 * v.1 + M.a21 * v.2.1 + M.a22 * v.2.2)

/-- Componentwise division of a homogeneous vector by a scalar,
modelling numpy's in-place `v /= w`. -/
def vecDiv (v : Vec3) (w : ℚ) : Vec3 :=
  (v.1 / w, v.2.1 / w, v.2.2 / w)

/-- Determinant of a 3x3 matrix (cofactor expansion along the first row),
the quantity `np.linalg.inv` fails on when it is zero. -/
def det3 (M : Mat3) : ℚ :=
  M.a00 * (M.a11 * M.a22 - M.a12 * M.a21)
    - M.a01 * (M.a10 * M.a22 - M.a12 * M.a20)
    + M.a02 * (M.a10 * M.a21 - M.a11 * M.a20)

/-- The adjugate-over-determinant inverse of a 3x3 matrix.  Only
meaningful when `det3 M ≠ 0`; `np_linalg_inv` guards the call. -/
def inv3 (M : Mat3) : Mat3 :=
  let d := det3 M
  ⟨(M.a11 * M.a22 - M.a12 * M.a21) / d,
   (M.a02 * M.a21 - M.a01 * M.a22) / d,
   (M.a01 * M.a12 - M.a02 * M.a11) / d,
   (M.a12 * M.a20 - M.a10 * M.a22) / d,
   (M.a00 * M.a22 - M.a02 * M.a20) / d,
   (M.a02 * M.a10 - M.a00 * M.a12) / d,
   (M.a10 * M.a21 - M.a11 * M.a20) / d,
   (M.a01 * M.a20 - M.a00 * M.a21) / d,
   (M.a00 * M.a11 - M.a01 * M.a10) / d⟩

/-- The Python exceptions the modelled operations can surface.
`linAlgError` is numpy's `numpy.linalg.LinAlgError` (raised by
`np.linalg.inv` on a singular matrix); `valueError` is numpy's shape
mismatch in `@`; `indexError` is out-of-range indexing; `attributeError`
is reading an attribute never assigned.  `singularTransformError` and
`invalidDimensionError` are the error classes named by the spec's error
taxonomy; the repository's code never defines nor raises them — they are
present only so that claims about them can be stated. -/
inductive PyError where
  | linAlgError
  | valueError
  | indexError
  | attributeError
  | singularTransformError
  | invalidDimensionError
deriving DecidableEq, Repr

/-- `np.linalg.inv`: raises `LinAlgError` on a singular matrix, otherwise
returns the inverse (exact, in this rational idealisation). -/
def np_linalg_inv (M : Mat3) : Except PyError Mat3 :=
  if det3 M = 0 then Except.error PyError.linAlgError
  else Except.ok (inv3 M)

/-- `translate2D(tx, ty)` from `coordinatus/transforms/translate.py`
(and identically `coordinate/__init__.py`). -/
def translate2D (tx ty : ℚ) : Mat3 :=
  ⟨1, 0, tx,
   0, 1, ty,
   0, 0, 1⟩

/-- `rotate2D(angle_rad)` from `coordinatus/transforms/rotate.py`, with
the angle represented by its cosine–sine pair `(c, s)`:
`c = cos angle_rad`, `s = sin angle_rad`.  Angle 0 is `(1, 0)`. -/
def rotate2D (c s : ℚ) : Mat3 :=
  ⟨c, -s, 0,
   s, c, 0,
   0, 0, 1⟩

/-- `scale2D(sx, sy)` from `coordinatus/transforms/scale.py`. -/
def scale2D (sx sy : ℚ) : Mat3 :=
  ⟨sx, 0, 0,
   0, sy, 0,
   0, 0, 1⟩

/-- `trs2D(tx, ty, angle_rad, sx, sy) = T @ R @ S` from
`coordinate/__init__.py` (the same function `relative/system.py` imports
as `.transforms.trs2D`); the angle is passed as its cosine–sine pair. -/
def trs2D (tx ty c s sx sy : ℚ) : Mat3 :=
  let T := translate2D tx ty
  let R := rotate2D c s
  let S := scale2D sx sy
  matMul (matMul T R) S

/-- `CoordinateType` from `relative/types.py` (as re-declared in
`coordinate/__init__.py`): the point/vector tag. -/
inductive CoordinateType where
  | POINT
  | VECTOR
deriving DecidableEq, Repr

/-- `System` from `relative/system.py`: a node of the frame tree holding
a 3x3 local-to-parent `transform` and an optional `parent`.  As an
inductive type, parent chains are finite by construction (the spec's
acyclicity invariant). -/
inductive System where
  | mk (transform : Mat3) (parent : Option System)

/-- The `transform` attribute of a `System`. -/
def System.transform : System → Mat3
  | .mk t _ => t

/-- The `parent` attribute of a `System`. -/
def System.parent : System → Option System
  | .mk _ p => p

/-- `System.global_transform`: the frame's own transform at a root,
otherwise `parent.global_transform() @ self.transform`. -/
def System.global_transform : System → Mat3
  | .mk t none => t
  | .mk t (some p) => matMul p.global_transform t

/-- `System.compute_convert_transform(target_system)`:
`np.linalg.inv(target.global_transform()) @ self.global_transform()`.
Propagates numpy's `LinAlgError` when the target's global transform is
singular. -/
def System.compute_convert_transform (s target_system : System) :
    Except PyError Mat3 :=
  match np_linalg_inv target_system.global_transform with
  | Except.error e => Except.error e
  | Except.ok inv_transform => Except.ok (matMul inv_transform s.global_transform)

/-- `system_factory(parent, tx, ty, angle_rad, sx, sy)` from
`relative/system.py`: builds the TRS matrix and wraps it in a `System`.
Python defaults are `tx=0, ty=0, angle_rad=0, sx=1, sy=1`; with the angle
as a cosine–sine pair, the default angle 0 is `(c, s) = (1, 0)`. -/
def system_factory (parent : Option System) (tx ty c s sx sy : ℚ) : System :=
  let transform := trs2D tx ty c s sx sy
  System.mk transform parent

/-- `transform_coordinate(transform, coordinates, coordinate_type)` from
`relative/coordinate.py`: append homogeneous weight 1 (point) or 0
(vector), multiply by the matrix, divide the whole homogeneous vector in
place by the resulting weight when it is non-zero, and return the first
two components. -/
def transform_coordinate (transform : Mat3) (coordinates : ℚ × ℚ)
    (coordinate_type : CoordinateType) : ℚ × ℚ :=
  let weight : ℚ := if coordinate_type = CoordinateType.POINT then 1 else 0
  let homogeneous_point : Vec3 := (coordinates.1, coordinates.2, weight)
  let transformed_point := matVec transform homogeneous_point
  let weight := transformed_point.2.2
  let transformed_point :=
    if weight ≠ 0 then vecDiv transformed_point weight else transformed_point
  (transformed_point.1, transformed_point.2.1)

/-- Modelled from the spec: `apply_transform(matrix, coords, kind)` as
§4.3 words it — lift `coords` to homogeneous form by appending weight 1.0
for Point or 0.0 for Vector, multiply by `matrix`; if the resulting
homogeneous weight is non-zero, divide the whole homogeneous vector by
that weight before dropping the weight component; if the weight is
exactly zero, drop the weight component without dividing.  Written from
the spec's sentences to be compared against `transform_coordinate`. -/
def apply_transform (matrix : Mat3) (coords : ℚ × ℚ)
    (kind : CoordinateType) : ℚ × ℚ :=
  let w : ℚ := if kind = CoordinateType.POINT then 1 else 0
  let lifted : Vec3 := (coords.1, coords.2, w)
  let h := matVec matrix lifted
  if h.2.2 ≠ 0 then
    let normalized := vecDiv h h.2.2
    (normalized.1, normalized.2.1)
  else
    (h.1, h.2.1)

/-- `Coordinate` from `relative/coordinate.py`: a point or vector with
2D `local_coords` expressed in `system`. -/
structure Coordinate where
  coordinate_type : CoordinateType
  local_coords : ℚ × ℚ
  system : System

/-- `Coordinate.__init__` of the canonical implementation
(`relative/coordinate.py`): stores the three attributes, substituting the
default `System()` (identity transform, no parent) when `system` is
`None`. -/
def coordinate_init (coordinate_type : CoordinateType) (local_coords : ℚ × ℚ)
    (system : Option System) : Coordinate :=
  ⟨coordinate_type, local_coords, system.getD (System.mk eye3 none)⟩

/-- `Point(local_coords, system)` from `relative/coordinate.py`. -/
def Point.make (local_coords : ℚ × ℚ) (system : Option System) : Coordinate :=
  coordinate_init CoordinateType.POINT local_coords system

/-- `Vector(local_coords, system)` from `relative/coordinate.py`. -/
def Vector.make (local_coords : ℚ × ℚ) (system : Option System) : Coordinate :=
  coordinate_init CoordinateType.VECTOR local_coords system

/-- `Coordinate.to_global` from `relative/coordinate.py`: apply the
system's global transform and return a fresh `Coordinate` constructed
with `system=None` (hence the default identity root system). -/
def Coordinate.to_global (c : Coordinate) : Coordinate :=
  let global_transform := c.system.global_transform
  let global_coords := transform_coordinate global_transform c.local_coords c.coordinate_type
  coordinate_init c.coordinate_type global_coords none

/-- `Coordinate.to_system(target_system)` from `relative/coordinate.py`:
compute the convert transform (which propagates numpy's `LinAlgError` if
the target's global transform is singular), apply it, and return a fresh
`Coordinate` tagged with the target system. -/
def Coordinate.to_system (c : Coordinate) (target_system : System) :
    Except PyError Coordinate :=
  match c.system.compute_convert_transform target_system with
  | Except.error e => Except.error e
  | Except.ok convert_transform =>
      let new_local_coords :=
        transform_coordinate convert_transform c.local_coords c.coordinate_type
      Except.ok (coordinate_init c.coordinate_type new_local_coords (some target_system))

/-! ### The legacy implementation in `src/coordinate/__init__.py`

Its `Coordinate.__init__` executes, in order:
`self.coordinate_type = ...`, `self.local_coords = ...`, then
`if self.system is None:` — reading the attribute `system` before any
assignment to it, which raises `AttributeError` in Python.  The model
makes the attribute store explicit: each attribute is absent (`none`)
until assigned, and reading an absent attribute is the error. -/

/-- The attribute store of a legacy `Coordinate` object under
construction: each field is `none` until the corresponding `self.x = ...`
assignment has run.  The `system` attribute, once set, holds an
`Option System` because Python may store `None` there. -/
structure LegacySelf where
  coordinate_type : Option CoordinateType
  local_coords : Option (ℚ × ℚ)
  system : Option (Option System)

/-- `Coordinate.__init__` of the legacy implementation
(`src/coordinate/__init__.py`, lines 72–79): assigns `coordinate_type`
and `local_coords`, then evaluates `if self.system is None:` — an
attribute read that fails with `AttributeError` because `system` has not
been assigned yet.  The code after the read is modelled faithfully but is
unreachable. -/
def legacy_coordinate_init (ct : CoordinateType) (lc : ℚ × ℚ)
    (system : Option System) : Except PyError LegacySelf :=
  let self : LegacySelf := ⟨none, none, none⟩
  let self := { self with coordinate_type := some ct }
  let self := { self with local_coords := some lc }
  match self.system with
  | none => Except.error PyError.attributeError
  | some stored =>
      let self :=
        match stored with
        | none => { self with system := some (some (System.mk eye3 none)) }
        | some _ => self
      let self := { self with system := some system }
      Except.ok self

/-! ### The numpy semantics of `transform_coordinate` on raw lists

`transform_coordinate` itself never checks shapes; when the coordinate
does not have exactly 2 components, or the matrix is not 3x3, the
behaviour is whatever numpy does.  `np.append` on a 1-D array is list
append; `M @ v` for a 2-D `M` and 1-D `v` requires every row's length to
equal `v`'s length (else `ValueError`); `v[2]` requires the result to
have more than 2 entries (else `IndexError`).  This list-level model is
used to settle the dimension-validation claim. -/

/-- Dot product of two rational lists of equal length. -/
def dotList (r v : List ℚ) : ℚ :=
  (List.zipWith (fun a b => a * b) r v).sum

/-- `M @ v` for a 2-D numpy array `M` (list of rows) and 1-D `v`:
`ValueError` unless every row has `v`'s length, else the list of row
dot products. -/
def npMatVec (M : List (List ℚ)) (v : List ℚ) : Except PyError (List ℚ) :=
  if M.all (fun row => row.length = v.length) then
    Except.ok (M.map (fun row => dotList row v))
  else
    Except.error PyError.valueError

/-- `transform_coordinate` re-read at the numpy level, with the matrix as
a list of rows and the coordinates as a raw list, so that inputs of the
wrong dimension can be fed to it: append the weight, multiply (shape
checked by numpy), index `[2]` (bounds checked by numpy), divide if the
weight is non-zero, take the first two components. -/
def transform_coordinate_np (transform : List (List ℚ)) (coordinates : List ℚ)
    (coordinate_type : CoordinateType) : Except PyError (List ℚ) :=
  let weight : ℚ := if coordinate_type = CoordinateType.POINT then 1 else 0
  let homogeneous_point := coordinates ++ [weight]
  match npMatVec transform homogeneous_point with
  | Except.error e => Except.error e
  | Except.ok transformed_point =>
      match transformed_point.get? 2 with
      | none => Except.error PyError.indexError
      | some weight =>
          let transformed_point :=
            if weight ≠ 0 then transformed_point.map (fun x => x / weight)
            else transformed_point
          Except.ok (transformed_point.take 2)

/-- The rows of a `Mat3`, for feeding a genuine 3x3 matrix to the
list-level model. -/
def mat3Rows (M : Mat3) : List (List ℚ) :=
  [[M.a00, M.a01, M.a02], [M.a10, M.a11, M.a12], [M.a20, M.a21, M.a22]]

/-- A matrix is affine when its bottom row is `[0, 0, 1]` — the spec's
§3 data-model invariant for every frame transform ("a 3x3 affine matrix
(homogeneous coordinates)"). -/
def IsAffine (M : Mat3) : Prop :=
  M.a20 = 0 ∧ M.a21 = 0 ∧ M.a22 = 1

instance (M : Mat3) : Decidable (IsAffine M) := by
  unfold IsAffine
  infer_instance

end Coord

namespace Coord

/-! ### Matrix algebra lemmas -/

theorem matMul_assoc (A B C : Mat3) :
    matMul (matMul A B) C = matMul A (matMul B C) := by
  simp only [matMul, Mat3.mk.injEq]
  refine ⟨?_, ?_, ?_, ?_, ?_, ?_, ?_, ?_, ?_⟩ <;> ring

theorem matMul_eye3 (M : Mat3) : matMul M eye3 = M := by
  ext <;> simp [matMul, eye3]

theorem eye3_matMul (M : Mat3) : matMul eye3 M = M := by
  ext <;> simp [matMul, eye3]

theorem matVec_matMul (A B : Mat3) (v : Vec3) :
    matVec (matMul A B) v = matVec A (matVec B v) := by
  simp only [matVec, matMul, Prod.mk.injEq]
  refine ⟨?_, ?_, ?_⟩ <;> ring

theorem matVec_eye3 (v : Vec3) : matVec eye3 v = v := by
  obtain ⟨x, y, z⟩ := v
  simp [matVec, eye3]

theorem inv3_matMul (M : Mat3) (h : det3 M ≠ 0) :
    matMul (inv3 M) M = eye3 := by
  ext <;>
    (simp only [matMul, inv3, eye3]
     field_simp
     try simp only [det3]
     ring)

theorem matMul_inv3 (M : Mat3) (h : det3 M ≠ 0) :
    matMul M (inv3 M) = eye3 := by
  ext <;>
    (simp only [matMul, inv3, eye3]
     field_simp
     try simp only [det3]
     ring)

/-! ### Affine matrices -/

theorem isAffine_matMul (A B : Mat3) (hA : IsAffine A) (hB : IsAffine B) :
    IsAffine (matMul A B) := by
  obtain ⟨ha0, ha1, ha2⟩ := hA
  obtain ⟨hb0, hb1, hb2⟩ := hB
  refine ⟨?_, ?_, ?_⟩ <;> simp [matMul, ha0, ha1, ha2, hb0, hb1, hb2]

theorem isAffine_inv3 (M : Mat3) (h : det3 M ≠ 0) (hM : IsAffine M) :
    IsAffine (inv3 M) := by
  obtain ⟨h0, h1, h2⟩ := hM
  have hd : M.a00 * M.a11 - M.a01 * M.a10 ≠ 0 := by
    simpa [det3, h0, h1, h2] using h
  refine ⟨?_, ?_, ?_⟩ <;>
    simp [inv3, det3, h0, h1, h2, div_self, hd, mul_comm]

theorem matVec_affine_weight (M : Mat3) (hM : IsAffine M) (v : Vec3) :
    (matVec M v).2.2 = v.2.2 := by
  obtain ⟨h0, h1, h2⟩ := hM
  simp [matVec, h0, h1, h2]

/-! ### Behaviour of the shared transform primitive -/

theorem transform_coordinate_eye3 (lc : ℚ × ℚ) (ct : CoordinateType) :
    transform_coordinate eye3 lc ct = lc := by
  obtain ⟨x, y⟩ := lc
  cases ct <;> simp [transform_coordinate, matVec, eye3, vecDiv]

theorem transform_coordinate_affine_point (M : Mat3) (hM : IsAffine M) (x y : ℚ) :
    transform_coordinate M (x, y) CoordinateType.POINT =
      ((matVec M (x, y, 1)).1, (matVec M (x, y, 1)).2.1) := by
  have hw : (matVec M (x, y, 1)).2.2 = 1 := matVec_affine_weight M hM (x, y, 1)
  simp [transform_coordinate, hw, vecDiv]

theorem transform_coordinate_affine_vector (M : Mat3) (hM : IsAffine M) (x y : ℚ) :
    transform_coordinate M (x, y) CoordinateType.VECTOR =
      ((matVec M (x, y, 0)).1, (matVec M (x, y, 0)).2.1) := by
  have hw : (matVec M (x, y, 0)).2.2 = 0 := matVec_affine_weight M hM (x, y, 0)
  simp [transform_coordinate, hw]

theorem vec3_eta (v : Vec3) (c : ℚ) (h : v.2.2 = c) :
    (v.1, v.2.1, c) = v := by
  obtain ⟨a, b, d⟩ := v
  simp only at h
  subst h
  rfl

/-- Key round-trip lemma: two affine transforms that compose (in the
application order `N` after `M`) to the identity cancel through
`transform_coordinate`, for points and vectors alike. -/
theorem transform_coordinate_inverse (M N : Mat3) (hM : IsAffine M)
    (hN : IsAffine N) (hNM : matMul N M = eye3) (lc : ℚ × ℚ)
    (ct : CoordinateType) :
    transform_coordinate N (transform_coordinate M lc ct) ct = lc := by
  obtain ⟨x, y⟩ := lc
  have key : ∀ w : ℚ, matVec N (matVec M (x, y, w)) = (x, y, w) := by
    intro w
    rw [← matVec_matMul, hNM, matVec_eye3]
  cases ct with
  | POINT =>
      have hw : (matVec M (x, y, 1)).2.2 = 1 := matVec_affine_weight M hM (x, y, 1)
      rw [transform_coordinate_affine_point M hM x y,
        transform_coordinate_affine_point N hN _ _]
      rw [vec3_eta _ _ hw, key 1]
  | VECTOR =>
      have hw : (matVec M (x, y, 0)).2.2 = 0 := matVec_affine_weight M hM (x, y, 0)
      rw [transform_coordinate_affine_vector M hM x y,
        transform_coordinate_affine_vector N hN _ _]
      rw [vec3_eta _ _ hw, key 0]

/-- Converting a coordinate to its own frame: the convert transform is
`inv(G) @ G = I`, and the identity transform leaves the local
coordinates untouched, so `to_system` returns an identical coordinate. -/
theorem to_own_system_eq (F : System) (ct : CoordinateType) (lc : ℚ × ℚ)
    (h : det3 F.global_transform ≠ 0) :
    Coordinate.to_system ⟨ct, lc, F⟩ F = Except.ok ⟨ct, lc, F⟩ := by
  simp only [Coordinate.to_system, System.compute_convert_transform,
    np_linalg_inv, if_neg h, inv3_matMul F.global_transform h,
    transform_coordinate_eye3, coordinate_init, Option.getD]

/-- numpy's `M @ v` with a 3x3 matrix and a vector of length other than 3
is a shape mismatch: `ValueError`. -/
theorem npMatVec_rows3 (M : Mat3) (v : List ℚ) (h : v.length ≠ 3) :
    npMatVec (mat3Rows M) v = Except.error PyError.valueError := by
  have hc : ((mat3Rows M).all (fun row => decide (row.length = v.length)))
      = false := by
    simp [mat3Rows]
    omega
  simp [npMatVec, hc]

end Coord

namespace Coord

/-! ## The claims -/

/-- Claim C1 (amended): for every coordinate and every target frame whose
global transform is singular (determinant zero, e.g. global transform
`scale2D 0 0`), `compute_convert_transform` with that frame as target and
`to_system` converting into that frame fail — with the `LinAlgError`
numpy's `np.linalg.inv` raises on a singular matrix, the repository
defining no `SingularTransformError` — rather than returning a matrix or
coordinate. -/
theorem claim_C1_singular_target_fails (c : Coordinate) (target : System)
    (h : det3 target.global_transform = 0) :
    c.system.compute_convert_transform target = Except.error PyError.linAlgError ∧
    c.to_system target = Except.error PyError.linAlgError := by
  have h1 : c.system.compute_convert_transform target
      = Except.error PyError.linAlgError := by
    simp only [System.compute_convert_transform, np_linalg_inv, if_pos h]
  refine ⟨h1, ?_⟩
  simp only [Coordinate.to_system, h1]

theorem claim_C1_singular_target_fails_witness :
    det3 (System.mk (scale2D 0 0) none).global_transform = 0 ∧
    (Point.make (1, 2) (some (System.mk eye3 none))).to_system
        (System.mk (scale2D 0 0) none) = Except.error PyError.linAlgError := by
  have h : det3 (System.mk (scale2D 0 0) none).global_transform = 0 := by
    norm_num [System.global_transform, det3, scale2D]
  exact ⟨h, (claim_C1_singular_target_fails
    (Point.make (1, 2) (some (System.mk eye3 none)))
    (System.mk (scale2D 0 0) none) h).2⟩

/-- Claim C1 counterexample to the claim as stated: with the singular
frame `scale2D 0 0` as target, `compute_convert_transform` and
`to_system` fail with numpy's `LinAlgError`, and in particular they do
not fail with the spec's `SingularTransformError` — no such error class
exists anywhere in the code. -/
theorem claim_C1_counterexample :
    (System.mk eye3 none).compute_convert_transform (System.mk (scale2D 0 0) none)
        = Except.error PyError.linAlgError ∧
    (System.mk eye3 none).compute_convert_transform (System.mk (scale2D 0 0) none)
        ≠ Except.error PyError.singularTransformError ∧
    (Point.make (1, 2) (some (System.mk eye3 none))).to_system
        (System.mk (scale2D 0 0) none)
        ≠ Except.error PyError.singularTransformError := by
  have h : det3 (System.mk (scale2D 0 0) none).global_transform = 0 := by
    norm_num [System.global_transform, det3, scale2D]
  have h1 : (System.mk eye3 none).compute_convert_transform
      (System.mk (scale2D 0 0) none) = Except.error PyError.linAlgError := by
    simp only [System.compute_convert_transform, np_linalg_inv, if_pos h]
  have h2 : (Point.make (1, 2) (some (System.mk eye3 none))).to_system
      (System.mk (scale2D 0 0) none) = Except.error PyError.linAlgError := by
    simp only [Coordinate.to_system, Point.make, coordinate_init, Option.getD, h1]
  exact ⟨h1, by simp [h1], by simp [h2]⟩

/-- Claim C2: for every frame `F` with invertible global transform and
every coordinate (point or vector) whose frame is `F`, converting to its
own frame via `to_system` succeeds and is the identity conversion — the
result carries the same kind, the unchanged `local_coords` (exactly, in
this rational idealisation), and `F` as its system. -/
theorem claim_C2_roundtrip_own_frame (F : System) (ct : CoordinateType)
    (lc : ℚ × ℚ) (h : det3 F.global_transform ≠ 0) :
    Coordinate.to_system ⟨ct, lc, F⟩ F = Except.ok ⟨ct, lc, F⟩ :=
  to_own_system_eq F ct lc h

theorem claim_C2_roundtrip_own_frame_witness :
    det3 (System.mk (translate2D 5 3) none).global_transform ≠ 0 ∧
    Coordinate.to_system
        ⟨CoordinateType.POINT, (1, 2), System.mk (translate2D 5 3) none⟩
        (System.mk (translate2D 5 3) none)
      = Except.ok ⟨CoordinateType.POINT, (1, 2), System.mk (translate2D 5 3) none⟩ := by
  have h : det3 (System.mk (translate2D 5 3) none).global_transform ≠ 0 := by
    norm_num [System.global_transform, det3, translate2D]
  exact ⟨h, claim_C2_roundtrip_own_frame (System.mk (translate2D 5 3) none)
    CoordinateType.POINT (1, 2) h⟩

/-- Claim C3: for frames `A` and `B` whose global transforms are
invertible (and affine, the spec's §3 data-model invariant for frame
transforms), converting a coordinate of `A` to `B` and back to `A`
recovers the original coordinate exactly, for points and vectors. -/
theorem claim_C3_roundtrip_via_frame (A B : System) (ct : CoordinateType)
    (lc : ℚ × ℚ) (hA : det3 A.global_transform ≠ 0)
    (hB : det3 B.global_transform ≠ 0) (haA : IsAffine A.global_transform)
    (haB : IsAffine B.global_transform) :
    (Coordinate.to_system ⟨ct, lc, A⟩ B).bind
        (fun c2 => Coordinate.to_system c2 A) = Except.ok ⟨ct, lc, A⟩ := by
  have hM : IsAffine (matMul (inv3 B.global_transform) A.global_transform) :=
    isAffine_matMul _ _ (isAffine_inv3 _ hB haB) haA
  have hN : IsAffine (matMul (inv3 A.global_transform) B.global_transform) :=
    isAffine_matMul _ _ (isAffine_inv3 _ hA haA) haB
  have hNM : matMul (matMul (inv3 A.global_transform) B.global_transform)
      (matMul (inv3 B.global_transform) A.global_transform) = eye3 := by
    rw [matMul_assoc, ← matMul_assoc B.global_transform, matMul_inv3 _ hB,
      eye3_matMul, inv3_matMul _ hA]
  simp only [Coordinate.to_system, System.compute_convert_transform,
    np_linalg_inv, if_neg hA, if_neg hB, coordinate_init, Option.getD,
    Except.bind]
  rw [transform_coordinate_inverse _ _ hM hN hNM]

theorem claim_C3_roundtrip_via_frame_witness :
    det3 (System.mk (translate2D 5 0) none).global_transform ≠ 0 ∧
    det3 (System.mk (translate2D 0 3) none).global_transform ≠ 0 ∧
    IsAffine (System.mk (translate2D 5 0) none).global_transform ∧
    IsAffine (System.mk (translate2D 0 3) none).global_transform ∧
    (Coordinate.to_system
        ⟨CoordinateType.POINT, (0, 0), System.mk (translate2D 5 0) none⟩
        (System.mk (translate2D 0 3) none)).bind
      (fun c2 => Coordinate.to_system c2 (System.mk (translate2D 5 0) none))
      = Except.ok ⟨CoordinateType.POINT, (0, 0), System.mk (translate2D 5 0) none⟩ := by
  have hA : det3 (System.mk (translate2D 5 0) none).global_transform ≠ 0 := by
    norm_num [System.global_transform, det3, translate2D]
  have hB : det3 (System.mk (translate2D 0 3) none).global_transform ≠ 0 := by
    norm_num [System.global_transform, det3, translate2D]
  exact ⟨hA, hB, ⟨rfl, rfl, rfl⟩, ⟨rfl, rfl, rfl⟩,
    claim_C3_roundtrip_via_frame (System.mk (translate2D 5 0) none)
      (System.mk (translate2D 0 3) none) CoordinateType.POINT (0, 0)
      hA hB ⟨rfl, rfl, rfl⟩ ⟨rfl, rfl, rfl⟩⟩

/-- Claim C4: for every 3x3 matrix, 2-component coordinates and kind, the
shared primitive `transform_coordinate` behaves exactly as the spec
describes `apply_transform`: append weight 1 for a point and 0 for a
vector, multiply, divide the whole homogeneous vector by the resulting
weight when that weight is non-zero (dropping it afterwards), drop the
weight without dividing when it is zero, and return the first two
components. -/
theorem claim_C4_apply_transform_spec_match (M : Mat3) (coords : ℚ × ℚ)
    (kind : CoordinateType) :
    transform_coordinate M coords kind = apply_transform M coords kind := by
  obtain ⟨x, y⟩ := coords
  cases kind with
  | POINT =>
      by_cases h : (matVec M (x, y, 1)).2.2 = 0
      · simp [transform_coordinate, apply_transform, h]
      · simp [transform_coordinate, apply_transform, h]
  | VECTOR =>
      by_cases h : (matVec M (x, y, 0)).2.2 = 0
      · simp [transform_coordinate, apply_transform, h]
      · simp [transform_coordinate, apply_transform, h]

/-- Claim C5: `global_transform` returns the frame's own transform at a
root and `parent.global_transform() @ self.transform` otherwise; in
particular, with root `R = translate2D 10 5` and child
`C = translate2D 3 2`, a point at the origin of `C` converts to global
coordinates `(13, 7)`. -/
theorem claim_C5_global_transform_composition :
    (∀ t : Mat3, (System.mk t none).global_transform = t) ∧
    (∀ (t : Mat3) (p : System),
        (System.mk t (some p)).global_transform = matMul p.global_transform t) ∧
    (Point.make (0, 0) (some (System.mk (translate2D 3 2)
        (some (System.mk (translate2D 10 5) none))))).to_global.local_coords
      = (13, 7) := by
  refine ⟨fun _ => rfl, fun _ _ => rfl, ?_⟩
  simp only [Coordinate.to_global, Point.make, coordinate_init,
    System.global_transform, transform_coordinate, matMul, matVec, translate2D,
    vecDiv]
  norm_num

/-- Claim C6: under a root frame with transform `translate2D 5 3`, a
point at the local origin converts via `to_global` to `(5, 3)` while a
vector with the same local value converts to `(0, 0)` — vectors are
unaffected by translation. -/
theorem claim_C6_point_vector_translation :
    (Point.make (0, 0) (some (System.mk (translate2D 5 3) none))).to_global.local_coords
        = (5, 3) ∧
    (Vector.make (0, 0) (some (System.mk (translate2D 5 3) none))).to_global.local_coords
        = (0, 0) := by
  constructor <;>
    (simp only [Coordinate.to_global, Point.make, Vector.make, coordinate_init,
       System.global_transform, transform_coordinate, matVec, translate2D,
       vecDiv]
     simp
     try norm_num)

/-- Claim C7: `to_global` and `to_system` both return a coordinate whose
kind equals the source's kind.  The source is never mutated: both Python
methods only read `self` and build a fresh `Coordinate`, which is why
their embedding is a pure function of an immutable argument, and the
theorem speaks of the unchanged input `c` on the right-hand sides. -/
theorem claim_C7_kind_preservation (c : Coordinate) (target : System)
    (r : Coordinate) :
    c.to_global.coordinate_type = c.coordinate_type ∧
    (c.to_system target = Except.ok r → r.coordinate_type = c.coordinate_type) := by
  refine ⟨rfl, fun h => ?_⟩
  unfold Coordinate.to_system at h
  cases hm : c.system.compute_convert_transform target with
  | error e => rw [hm] at h; cases h
  | ok M =>
      rw [hm] at h
      simp only at h
      injection h with h2
      rw [← h2]
      rfl

theorem claim_C7_kind_preservation_witness :
    (Point.make (1, 2) none).to_system (System.mk eye3 none)
        = Except.ok ⟨CoordinateType.POINT, (1, 2), System.mk eye3 none⟩ ∧
    (⟨CoordinateType.POINT, (1, 2), System.mk eye3 none⟩ : Coordinate).coordinate_type
        = (Point.make (1, 2) none).coordinate_type := by
  have hd : det3 (System.mk eye3 none).global_transform ≠ 0 := by
    norm_num [System.global_transform, det3, eye3]
  have h : (Point.make (1, 2) none).to_system (System.mk eye3 none)
      = Except.ok ⟨CoordinateType.POINT, (1, 2), System.mk eye3 none⟩ :=
    to_own_system_eq (System.mk eye3 none) CoordinateType.POINT (1, 2) hd
  exact ⟨h, (claim_C7_kind_preservation (Point.make (1, 2) none)
    (System.mk eye3 none) ⟨CoordinateType.POINT, (1, 2), System.mk eye3 none⟩).2 h⟩

/-- Claim C8 (amended): the code performs no dimension validation and
defines no `InvalidDimensionError`.  With a 3x3 matrix, a coordinate
whose local value does not have exactly 2 components makes the numpy
matrix product fail with a shape-mismatch `ValueError` instead. -/
theorem claim_C8_no_dimension_validation (M : Mat3) (coords : List ℚ)
    (ct : CoordinateType) (h : coords.length ≠ 2) :
    transform_coordinate_np (mat3Rows M) coords ct
      = Except.error PyError.valueError := by
  simp only [transform_coordinate_np]
  have hlen : (coords ++ [if ct = CoordinateType.POINT then (1:ℚ) else 0]).length
      ≠ 3 := by
    simp [List.length_append]
    omega
  rw [npMatVec_rows3 _ _ hlen]

theorem claim_C8_no_dimension_validation_witness :
    ([(1 : ℚ)] : List ℚ).length ≠ 2 ∧
    transform_coordinate_np (mat3Rows eye3) [1] CoordinateType.POINT
      = Except.error PyError.valueError :=
  ⟨by decide,
   claim_C8_no_dimension_validation eye3 [1] CoordinateType.POINT (by decide)⟩

/-- Claim C8 counterexample to the claim as stated: a 1-component
coordinate with a 3x3 matrix raises numpy's `ValueError`, not an
`InvalidDimensionError`; and a non-3x3 (here 4x3) matrix raises nothing
at all — the operation silently returns the first two components. -/
theorem claim_C8_counterexample :
    transform_coordinate_np (mat3Rows eye3) [1] CoordinateType.POINT
        ≠ Except.error PyError.invalidDimensionError ∧
    transform_coordinate_np (mat3Rows eye3) [1] CoordinateType.POINT
        = Except.error PyError.valueError ∧
    transform_coordinate_np [[1, 0, 0], [0, 1, 0], [0, 0, 1], [0, 0, 0]] [1, 2]
        CoordinateType.POINT = Except.ok [1, 2] := by
  have h1 : transform_coordinate_np (mat3Rows eye3) [1] CoordinateType.POINT
      = Except.error PyError.valueError := by
    simp [transform_coordinate_np, npMatVec, mat3Rows]
  have h2 : transform_coordinate_np [[1, 0, 0], [0, 1, 0], [0, 0, 1], [0, 0, 0]]
      [1, 2] CoordinateType.POINT = Except.ok [1, 2] := by
    simp only [transform_coordinate_np, npMatVec, dotList]
    norm_num
  exact ⟨by simp [h1], h1, h2⟩

/-- Claim C9: the legacy implementation in `src/coordinate/__init__.py`
is broken — every construction of a `Coordinate` (hence of `Point` or
`Vector`, which delegate to the same `__init__`) reads `self.system`
before it is assigned and fails with `AttributeError`, for every input;
the canonical implementation (`src/relative/`) constructs the coordinate
successfully from the same input. -/
theorem claim_C9_legacy_init_broken (ct : CoordinateType) (lc : ℚ × ℚ)
    (system : Option System) :
    legacy_coordinate_init ct lc system = Except.error PyError.attributeError ∧
    coordinate_init ct lc system = ⟨ct, lc, system.getD (System.mk eye3 none)⟩ :=
  ⟨rfl, rfl⟩

/-- Claim C10: `system_factory` with every TRS parameter left at its
Python default (`tx=0, ty=0, angle_rad=0, sx=1, sy=1`; the angle 0 being
the cosine–sine pair `(1, 0)`) returns, for every parent, a `System`
whose transform is exactly the 3x3 identity — the same value
`System(parent=parent)` constructs with its default transform. -/
theorem claim_C10_factory_defaults_identity (parent : Option System) :
    (system_factory parent 0 0 1 0 1 1).transform = eye3 ∧
    system_factory parent 0 0 1 0 1 1 = System.mk eye3 parent := by
  have h : trs2D 0 0 1 0 1 1 = eye3 := by
    ext <;> norm_num [trs2D, translate2D, rotate2D, scale2D, matMul, eye3]
  constructor
  · show (System.mk (trs2D 0 0 1 0 1 1) parent).transform = eye3
    rw [System.transform, h]
  · show System.mk (trs2D 0 0 1 0 1 1) parent = System.mk eye3 parent
    rw [h]

end Coord
